import Mathlib

/-!
Verification of the token-accounting and video-job admission core of the
ai-studio-backend repository, as a shallow embedding in Lean 4.

The embedding translates, statement by statement:
  - app/core/token_costs.py            (TOKEN_COSTS, get_operation_cost, is_valid_operation)
  - app/models/subscription.py         (UserSubscription methods, TokenTransaction shape)
  - app/api/v1/endpoints/subscription.py        (consume_tokens_internal)
  - app/api/v1/endpoints/admin_subscription.py  (topup_user_tokens, reset_user_billing_period)
  - app/api/v1/endpoints/video_jobs.py (create_video_job admission pipeline)
  - app/workers/video_worker.py        (process_video_generation status lifecycle)

Database rows become explicit record values, the SQLAlchemy session becomes
explicit state passing, an uncaught Python exception (ValueError / HTTPException
raised before any mutation is committed) becomes `Except.error`, and timestamps,
ids and purely cosmetic fields are dropped.  Source messages are reproduced
except that the single-quote characters around interpolated values are elided.
-/

namespace AIStudio

/-- The operation-cost table from app/core/token_costs.py (`TOKEN_COSTS`).
Its header calls it "the single source of truth for all token costs".
Note: it contains no `video_generation` entry. -/
def TOKEN_COSTS : List (String × Int) :=
  [("text_to_image", 10),
   ("multi_modal", 20),
   ("multi_modal_light", 8),
   ("image_to_text", 5),
   ("text_to_text", 3)]

/-- `is_valid_operation` from app/core/token_costs.py: membership in the cost table.
The table is passed explicitly; the source reads the module-level `TOKEN_COSTS`,
which the module header describes as configuration. -/
def is_valid_operation (costs : List (String × Int)) (operation : String) : Bool :=
  costs.any (fun p => p.1 == operation)

/-- `get_operation_cost` from app/core/token_costs.py: table lookup, raising
`ValueError` (here `Except.error`) on an unknown operation name. -/
def get_operation_cost (costs : List (String × Int)) (operation : String) :
    Except String Int :=
  match costs.find? (fun p => p.1 == operation) with
  | some p => Except.ok p.2
  | none => Except.error s!"Unknown operation: {operation}"

/-- Token limits per tier from app/models/subscription.py (`TIER_TOKEN_LIMITS`);
-1 means unlimited. -/
def TIER_TOKEN_LIMITS : List (String × Int) :=
  [("free", 100), ("basic", 300), ("pro", 1000), ("pro_plus", 3000), ("ultimate", -1)]

/-- The token counters of a `UserSubscription` row (app/models/subscription.py).
Timestamps and ids are dropped; they carry no accounting content. -/
structure UserSubscription where
  tier : String
  total_tokens : Int
  available_tokens : Int
  consumed_tokens : Int
  lifetime_consumed : Int
deriving Repr, DecidableEq

/-- `UserSubscription.is_unlimited`. -/
def UserSubscription.is_unlimited (s : UserSubscription) : Bool :=
  s.tier == "ultimate"

/-- `UserSubscription.has_tokens`. -/
def UserSubscription.has_tokens (s : UserSubscription) (required : Int) : Bool :=
  if s.is_unlimited then true
  else decide (s.available_tokens ≥ required)

/-- `UserSubscription.consume_tokens`: the source mutates the row and returns a
Bool; here the updated row is returned alongside. -/
def UserSubscription.consume_tokens (s : UserSubscription) (amount : Int) :
    Bool × UserSubscription :=
  if s.is_unlimited then
    (true, { s with consumed_tokens := s.consumed_tokens + amount,
                    lifetime_consumed := s.lifetime_consumed + amount })
  else if s.available_tokens ≥ amount then
    (true, { s with available_tokens := s.available_tokens - amount,
                    consumed_tokens := s.consumed_tokens + amount,
                    lifetime_consumed := s.lifetime_consumed + amount })
  else
    (false, s)

/-- A `TokenTransaction` row (app/models/subscription.py); id and timestamp dropped. -/
structure TokenTransaction where
  type : String
  amount : Int
  description : String
  balance_before : Int
  balance_after : Int
  admin_id : Option String
deriving Repr, DecidableEq

/-- The persisted accounting state for one user: the subscription row plus the
append-only transaction ledger. -/
structure LedgerState where
  subscription : UserSubscription
  transactions : List TokenTransaction
deriving Repr, DecidableEq

/-- The dict returned by `consume_tokens_internal`. -/
structure ConsumeResult where
  success : Bool
  cost : Int
  availableTokens : Int
  consumedTokens : Int
  message : String
deriving Repr, DecidableEq

/-- The shortfall message built by `consume_tokens_internal` (quotes around the
operation name elided). -/
def insufficient_message (operation : String) (cost available : Int) : String :=
  s!"Insufficient tokens. Operation {operation} costs {cost} tokens but you have {available}."

/-- The success message built by `consume_tokens_internal` (quotes elided). -/
def success_message (operation : String) (cost : Int) : String :=
  s!"Successfully consumed {cost} tokens for {operation} operation."

/-- `consume_tokens_internal` from app/api/v1/endpoints/subscription.py, lines 82-135.
`Except.error` models the uncaught `ValueError` raised for an invalid operation
(raised before any database mutation, so the state is untouched there).  On the
shortfall path the function returns with `success=False` and writes nothing; on
the success path it updates the subscription row and appends exactly one
`consumption` transaction, with -1 balance snapshots on the unlimited tier. -/
def consume_tokens_internal (costs : List (String × Int))
    (operation description : String) (st : LedgerState) :
    Except String (ConsumeResult × LedgerState) :=
  if is_valid_operation costs operation = false then
    Except.error s!"Invalid operation: {operation}"
  else
    match get_operation_cost costs operation with
    | Except.error e => Except.error e
    | Except.ok cost =>
      let sub := st.subscription
      if sub.has_tokens cost = false then
        Except.ok ({ success := false, cost := cost,
                     availableTokens := sub.available_tokens,
                     consumedTokens := sub.consumed_tokens,
                     message := insufficient_message operation cost sub.available_tokens }, st)
      else
        let balance_before := sub.available_tokens
        let sub2 := (sub.consume_tokens cost).2
        let txn : TokenTransaction :=
          { type := "consumption", amount := -cost, description := description,
            balance_before := if sub2.is_unlimited then -1 else balance_before,
            balance_after := if sub2.is_unlimited then -1 else sub2.available_tokens,
            admin_id := none }
        Except.ok ({ success := true, cost := cost,
                     availableTokens := sub2.available_tokens,
                     consumedTokens := sub2.consumed_tokens,
                     message := success_message operation cost },
                   { subscription := sub2, transactions := st.transactions ++ [txn] })

/-- A subscription as `get_or_create_subscription` freshly creates it
(app/api/v1/endpoints/subscription.py, lines 35-53): free tier, 100 tokens. -/
def fresh_free_subscription : UserSubscription :=
  { tier := "free", total_tokens := 100, available_tokens := 100,
    consumed_tokens := 0, lifetime_consumed := 0 }

/-- The accounting state of a user right after lazy subscription creation. -/
def fresh_free_state : LedgerState :=
  { subscription := fresh_free_subscription, transactions := [] }

/-- The rejection message of `topup_user_tokens` for an overdraft deduction
(quotes elided; `abs(request.amount)` is `amount.natAbs`). -/
def deduction_rejected_message (deduct_abs : Nat) (available : Int) : String :=
  s!"Cannot deduct {deduct_abs} tokens. User only has {available} available tokens."

/-- The defaulted transaction description of `topup_user_tokens`. -/
def topup_description (amount : Int) (description : Option String) : String :=
  match description with
  | some d => d
  | none =>
    if amount > 0 then s!"Admin top-up of {amount} tokens"
    else s!"Admin deduction of {amount.natAbs} tokens"

/-- `topup_user_tokens` from app/api/v1/endpoints/admin_subscription.py, lines
218-264 (after the user/subscription lookups, which are modelled by the caller
holding a `LedgerState`).  `Except.error` models the `HTTPException`s raised
before any mutation: unlimited-tier adjustment and overdraft deduction both
leave the ledger untouched.  Otherwise both token counters move by `amount`
and exactly one `topup` / `admin_deduction` transaction is appended. -/
def topup_user_tokens (amount : Int) (description : Option String)
    (admin_id : String) (st : LedgerState) : Except String LedgerState :=
  let sub := st.subscription
  if sub.is_unlimited then
    Except.error "Cannot adjust tokens for unlimited tier"
  else
    let balance_before := sub.available_tokens
    if amount < 0 ∧ sub.available_tokens + amount < 0 then
      Except.error (deduction_rejected_message amount.natAbs sub.available_tokens)
    else
      let sub2 := { sub with available_tokens := sub.available_tokens + amount,
                             total_tokens := sub.total_tokens + amount }
      let transaction_type := if amount > 0 then "topup" else "admin_deduction"
      let txn : TokenTransaction :=
        { type := transaction_type, amount := amount,
          description := topup_description amount description,
          balance_before := balance_before,
          balance_after := sub2.available_tokens,
          admin_id := some admin_id }
      Except.ok { subscription := sub2, transactions := st.transactions ++ [txn] }

/-- `reset_user_billing_period` from app/api/v1/endpoints/admin_subscription.py,
lines 280-340: `consumed_tokens` is zeroed unconditionally; the totals are
restored to the tier limit unless the tier is unlimited; one `reset`
transaction is appended.  `Except.error` models the `ValueError` the
`SubscriptionTier(...)` constructor raises on an unrecognised tier string. -/
def reset_user_billing_period (admin_id : String) (st : LedgerState) :
    Except String LedgerState :=
  let sub := st.subscription
  let balance_before := sub.available_tokens
  match TIER_TOKEN_LIMITS.find? (fun p => p.1 == sub.tier) with
  | none => Except.error s!"Invalid tier: {sub.tier}"
  | some p =>
    let token_limit := p.2
    let sub2 :=
      if token_limit ≠ -1 then
        { sub with consumed_tokens := 0,
                   total_tokens := token_limit,
                   available_tokens := token_limit }
      else
        { sub with consumed_tokens := 0 }
    let txn : TokenTransaction :=
      { type := "reset",
        amount := if token_limit ≠ -1 then sub2.available_tokens - balance_before else 0,
        description := "Billing period reset by admin",
        balance_before := balance_before,
        balance_after := sub2.available_tokens,
        admin_id := some admin_id }
    Except.ok { subscription := sub2, transactions := st.transactions ++ [txn] }

/-- A `VideoJob` row (app/models/video_job.py) restricted to the fields the
claims are about.  In the source `aspect_ratio` is the column name; it is
renamed `aspectRatioStr` here for lexical reasons only. -/
structure VideoJobRow where
  user_id : String
  prompt : Option String
  model : String
  resolution : String
  aspectRatioStr : String
  status : String
  progress_percentage : Int
  error_message : Option String
  tokens_consumed : Int
deriving Repr, DecidableEq

/-- The outcome of the `create_video_job` endpoint, one constructor per exit of
app/api/v1/endpoints/video_jobs.py lines 85-255: the 402 payment rejection, the
429 concurrency rejection, the 400 validation rejections, and the created
PENDING row. -/
inductive CreateJobOutcome where
  | paymentRequired (message : String) (cost availableTokens : Int)
  | tooManyJobs (message : String)
  | badRequest (message : String)
  | created (job : VideoJobRow)
deriving Repr, DecidableEq

/-- The 429 detail string of `create_video_job`. -/
def too_many_jobs_message : String :=
  "Maximum 3 concurrent video jobs allowed. Please wait for existing jobs to complete."

/-- The admission pipeline of `create_video_job`
(app/api/v1/endpoints/video_jobs.py, lines 85-255), in source order:

1. `consume_tokens_internal(user_id, "video_generation", ...)`; its uncaught
   `ValueError` propagates (`Except.error`); on `success=False` the endpoint
   raises 402 `paymentRequired`.
2. The concurrent-jobs count query is wrapped in try/except; on an exception
   the count defaults to 0 ("allow the request").  `countResult` carries the
   query outcome.  A count of at least 3 raises 429 `tooManyJobs`.
3. Parameter validation: prompt or initial image required; resolution in
   {720p, 1080p}; aspect ratio in {16:9, 9:16}; each failure raises 400.
4. Otherwise the job row is created with status PENDING and
   `tokens_consumed := token_result["consumedTokens"]` (the cumulative figure
   the consume call returned).

Every exit after step 1 keeps the post-consumption ledger state `st1`: the
source commits the consumption inside `consume_tokens_internal` and has no
refund path.  The transaction description built from the prompt prefix is
replaced by a constant; it only feeds audit text.  Image persistence, look
linking and enqueueing (steps after row creation) do not touch the ledger or
the admission decision and are not modelled. -/
def create_video_job (costs : List (String × Int)) (uid : String)
    (prompt : Option String) (model resolution aspectRatioStr : String)
    (hasInitialImage : Bool) (countResult : Except String Nat)
    (st : LedgerState) : Except String (CreateJobOutcome × LedgerState) :=
  match consume_tokens_internal costs "video_generation" "Video generation" st with
  | Except.error e => Except.error e
  | Except.ok (token_result, st1) =>
    if token_result.success = false then
      Except.ok (CreateJobOutcome.paymentRequired token_result.message
        token_result.cost token_result.availableTokens, st1)
    else
      let running_jobs_count : Nat :=
        match countResult with
        | Except.ok n => n
        | Except.error _ => 0
      if running_jobs_count ≥ 3 then
        Except.ok (CreateJobOutcome.tooManyJobs too_many_jobs_message, st1)
      else if prompt = none ∧ hasInitialImage = false then
        Except.ok (CreateJobOutcome.badRequest
          "Either prompt or initialImage is required", st1)
      else if resolution ≠ "720p" ∧ resolution ≠ "1080p" then
        Except.ok (CreateJobOutcome.badRequest
          "Resolution must be 720p or 1080p", st1)
      else if aspectRatioStr ≠ "16:9" ∧ aspectRatioStr ≠ "9:16" then
        Except.ok (CreateJobOutcome.badRequest
          "Aspect ratio must be 16:9 or 9:16", st1)
      else
        let new_job : VideoJobRow :=
          { user_id := uid, prompt := prompt, model := model,
            resolution := resolution, aspectRatioStr := aspectRatioStr,
            status := "PENDING", progress_percentage := 0,
            error_message := none,
            tokens_consumed := token_result.consumedTokens }
        Except.ok (CreateJobOutcome.created new_job, st1)

/-- The cost table with the `video_generation` entry configured at the cost the
source itself documents: the `create_video_job` docstring says "Consumes 50
tokens from the user subscription" and the `VideoJob.tokens_consumed` column
defaults to 50 with the comment "Tokens charged for this job".  The shipped
`TOKEN_COSTS` table lacks the entry (claim C1), so claims about the admission
steps after the cost lookup are settled against this documented configuration. -/
def TOKEN_COSTS_video : List (String × Int) :=
  TOKEN_COSTS ++ [("video_generation", 50)]

/-- Outcome of one external step the worker performs (start the render / poll
to completion / download / upload); `fail` carries the exception text.  For the
polling loop, a provider error and the 15-minute timeout both surface as the
caught exception of the same try block, hence one `fail` constructor. -/
inductive StepOutcome where
  | ok
  | fail (msg : String)
deriving Repr, DecidableEq

/-- The external world one worker invocation observes. -/
structure WorkerEnv where
  start : StepOutcome
  poll : StepOutcome
  download : StepOutcome
  upload : StepOutcome
deriving Repr, DecidableEq

/-- Terminal video-job statuses per the spec and the status list of the model. -/
def is_terminal (s : String) : Bool :=
  s == "SUCCEEDED" || s == "FAILED" || s == "CANCELLED" || s == "DELETED"

/-- `process_video_generation` from app/workers/video_worker.py, lines 46-423,
as a function of the job row it fetched and the outcomes of its four external
steps.  The second component is the sequence of committed `job.status`
assignments, in order.  Fidelity notes:

- If the job id is not found the task returns without writing (lines 62-65).
- Otherwise the job is set to RUNNING *unconditionally* (line 68): there is no
  check that the fetched status is PENDING or non-terminal.
- Each failing step commits FAILED with an error message and returns; the
  progress percentage last committed before the failure is kept (frozen below
  100).  The catch-all handler (lines 411-420) does the same for unexpected
  exceptions, which `fail` also covers.
- The success path commits SUCCEEDED at progress 100. -/
def process_video_generation (env : WorkerEnv) (job : Option VideoJobRow) :
    Option VideoJobRow × List String :=
  match job with
  | none => (none, [])
  | some j =>
    let j1 := { j with status := "RUNNING", progress_percentage := 10 }
    match env.start with
    | StepOutcome.fail e =>
      (some { j1 with status := "FAILED",
                      error_message := some s!"Failed to start generation: {e}" },
       ["RUNNING", "FAILED"])
    | StepOutcome.ok =>
      let j2 := { j1 with progress_percentage := 15 }
      match env.poll with
      | StepOutcome.fail e =>
        (some { j2 with status := "FAILED",
                        error_message := some s!"Generation failed: {e}" },
         ["RUNNING", "FAILED"])
      | StepOutcome.ok =>
        let j3 := { j2 with progress_percentage := 75 }
        match env.download with
        | StepOutcome.fail e =>
          (some { j3 with status := "FAILED",
                          error_message := some s!"Failed to download video: {e}" },
           ["RUNNING", "FAILED"])
        | StepOutcome.ok =>
          let j4 := { j3 with progress_percentage := 90 }
          match env.upload with
          | StepOutcome.fail e =>
            (some { j4 with status := "FAILED",
                            error_message := some s!"Failed to upload video: {e}" },
             ["RUNNING", "FAILED"])
          | StepOutcome.ok =>
            (some { j4 with status := "SUCCEEDED", progress_percentage := 100 },
             ["RUNNING", "SUCCEEDED"])

/-- One `consume` call as the source executes it against the database: the
subscription row is read with a plain SELECT — there is no `with_for_update`,
`FOR UPDATE` or any other row lock anywhere in the source — so the session
works on a snapshot of the row. -/
def consume_snapshot_read (store : UserSubscription) : UserSubscription :=
  store

/-- The second half of a `consume` call: the balance check runs on the
snapshot held by the session; on failure the call returns before writing; on success
`db.commit()` issues an UPDATE that sets the columns of the row to the
snapshot-derived values (last write wins). -/
def consume_commit_write (cost : Int) (snapshot store : UserSubscription) :
    Bool × UserSubscription :=
  if snapshot.has_tokens cost = false then
    (false, store)
  else
    (true, (snapshot.consume_tokens cost).2)

/-- Two concurrent `consume` calls of the same cost for the same user, under
the interleaving in which both sessions read the row before either commits —
the interleaving a row-level lock would forbid and nothing in the source
forbids. -/
def two_consumes_read_read_commit_commit (cost : Int) (store0 : UserSubscription) :
    Bool × Bool × UserSubscription :=
  let snapA := consume_snapshot_read store0
  let snapB := consume_snapshot_read store0
  let resA := consume_commit_write cost snapA store0
  let resB := consume_commit_write cost snapB resA.2
  (resA.1, resB.1, resB.2)

/-! ## Helper lemmas -/

/-- A successful cost lookup means the operation is valid. -/
lemma is_valid_of_cost {costs : List (String × Int)} {operation : String} {c : Int}
    (h : get_operation_cost costs operation = Except.ok c) :
    is_valid_operation costs operation = true := by
  unfold get_operation_cost at h
  cases hf : costs.find? (fun p => p.1 == operation) with
  | none => rw [hf] at h; cases h
  | some p =>
    rw [hf] at h
    have hp := List.find?_some hf
    exact List.any_eq_true.mpr ⟨p, List.mem_of_find?_eq_some hf, hp⟩

/-- Every cost in the shipped table is nonnegative. -/
lemma cost_nonneg {operation : String} {c : Int}
    (h : get_operation_cost TOKEN_COSTS operation = Except.ok c) : 0 ≤ c := by
  unfold get_operation_cost at h
  cases hf : TOKEN_COSTS.find? (fun p => p.1 == operation) with
  | none => rw [hf] at h; cases h
  | some p =>
    rw [hf] at h
    cases h
    have hmem := List.mem_of_find?_eq_some hf
    have hall : ∀ q ∈ TOKEN_COSTS, (0 : Int) ≤ q.2 := by decide
    exact hall p hmem

/-! ## C1 -/

/-- C1: the operation-cost table does NOT define a cost for the
`video_generation` operation the video-job admission consumes, so every call to
`create_video_job` fails with the unknown-operation `ValueError` instead of
returning success or an insufficient-tokens result.  Evaluations at the failing
input (any submission; here a fresh free-tier user with a valid request). -/
theorem token_cost_table_misses_video_generation :
    is_valid_operation TOKEN_COSTS "video_generation" = false ∧
    consume_tokens_internal TOKEN_COSTS "video_generation" "Video generation"
        fresh_free_state
      = Except.error "Invalid operation: video_generation" ∧
    create_video_job TOKEN_COSTS "u1" (some "a red dress on a runway")
        "veo-3.1-generate-preview" "720p" "16:9" false (Except.ok 0)
        fresh_free_state
      = Except.error "Invalid operation: video_generation" :=
  ⟨rfl, rfl, rfl⟩

/-! ## C3 -/

/-- C3: on a non-unlimited subscription, a consume whose cost exceeds the
available balance returns success=false with the shortfall message and returns
the state unchanged (all four counters and the transaction ledger untouched);
and no consume call ever drives `available_tokens` below zero. -/
theorem consume_shortfall_leaves_state_unchanged :
    (∀ (operation description : String) (st : LedgerState) (c : Int),
      get_operation_cost TOKEN_COSTS operation = Except.ok c →
      st.subscription.is_unlimited = false →
      st.subscription.available_tokens < c →
      consume_tokens_internal TOKEN_COSTS operation description st =
        Except.ok ({ success := false, cost := c,
                     availableTokens := st.subscription.available_tokens,
                     consumedTokens := st.subscription.consumed_tokens,
                     message := insufficient_message operation c
                       st.subscription.available_tokens }, st)) ∧
    (∀ (operation description : String) (st : LedgerState)
       (res : ConsumeResult) (st2 : LedgerState),
      0 ≤ st.subscription.available_tokens →
      consume_tokens_internal TOKEN_COSTS operation description st =
        Except.ok (res, st2) →
      0 ≤ st2.subscription.available_tokens) := by
  constructor
  · intro operation description st c hc hnu hlt
    have hv := is_valid_of_cost hc
    have hht : st.subscription.has_tokens c = false := by
      simp [UserSubscription.has_tokens, hnu, hlt, not_le.mpr hlt]
    simp [consume_tokens_internal, hv, hc, hht]
  · intro operation description st res st2 h0 hcons
    unfold consume_tokens_internal at hcons
    split at hcons
    · cases hcons
    · split at hcons
      · cases hcons
      · rename_i cost heq
        dsimp only at hcons
        split at hcons
        · simp only [Except.ok.injEq, Prod.mk.injEq] at hcons
          rw [← hcons.2]
          exact h0
        · rename_i hht
          simp only [Except.ok.injEq, Prod.mk.injEq] at hcons
          rw [← hcons.2]
          by_cases hu : st.subscription.is_unlimited = true
          · simp [UserSubscription.consume_tokens, hu]
            exact h0
          · rw [Bool.not_eq_true] at hu
            have hge : st.subscription.available_tokens ≥ cost := by
              by_contra hlt
              rw [not_le] at hlt
              exact hht (by simp [UserSubscription.has_tokens, hu, not_le.mpr hlt])
            simp [UserSubscription.consume_tokens, hu, hge]

/-- Witness for C3 at a concrete input: free tier, 5 tokens left, cost-10
operation: the call reports the shortfall and returns the state unchanged, and
a fresh free-tier consume keeps the balance nonnegative. -/
theorem consume_shortfall_leaves_state_unchanged_witness :
    consume_tokens_internal TOKEN_COSTS "text_to_image" "w"
        { subscription := { tier := "free", total_tokens := 100,
                            available_tokens := 5, consumed_tokens := 95,
                            lifetime_consumed := 95 }, transactions := [] } =
      Except.ok ({ success := false, cost := 10, availableTokens := 5,
                   consumedTokens := 95,
                   message := insufficient_message "text_to_image" 10 5 },
                 { subscription := { tier := "free", total_tokens := 100,
                                     available_tokens := 5, consumed_tokens := 95,
                                     lifetime_consumed := 95 },
                   transactions := [] }) ∧
    (0 : Int) ≤ 90 := by
  constructor
  · exact consume_shortfall_leaves_state_unchanged.1 "text_to_image" "w"
      { subscription := { tier := "free", total_tokens := 100,
                          available_tokens := 5, consumed_tokens := 95,
                          lifetime_consumed := 95 }, transactions := [] }
      10 rfl rfl (by decide)
  · have h := consume_shortfall_leaves_state_unchanged.2 "text_to_image" "w"
      fresh_free_state
      { success := true, cost := 10, availableTokens := 90, consumedTokens := 10,
        message := success_message "text_to_image" 10 }
      { subscription := { tier := "free", total_tokens := 100,
                          available_tokens := 90, consumed_tokens := 10,
                          lifetime_consumed := 10 },
        transactions := [{ type := "consumption", amount := -10,
                           description := "w", balance_before := 100,
                           balance_after := 90, admin_id := none }] }
      (by decide) rfl
    exact h

/-! ## C7 -/

/-- C7: on the ultimate tier `has_tokens` is true for every requested amount,
and a consume leaves `available_tokens` and `total_tokens` unchanged while
adding the cost of the operation to `consumed_tokens` and `lifetime_consumed`; the
appended consumption transaction carries the -1 sentinel for both balance
snapshots. -/
theorem ultimate_tier_consume_behavior
    (operation description : String) (st : LedgerState) (c : Int)
    (ht : st.subscription.tier = "ultimate")
    (hc : get_operation_cost TOKEN_COSTS operation = Except.ok c) :
    (∀ amount : Int, st.subscription.has_tokens amount = true) ∧
    consume_tokens_internal TOKEN_COSTS operation description st =
      Except.ok ({ success := true, cost := c,
                   availableTokens := st.subscription.available_tokens,
                   consumedTokens := st.subscription.consumed_tokens + c,
                   message := success_message operation c },
                 { subscription := { st.subscription with
                       consumed_tokens := st.subscription.consumed_tokens + c,
                       lifetime_consumed := st.subscription.lifetime_consumed + c },
                   transactions := st.transactions ++
                     [{ type := "consumption", amount := -c,
                        description := description,
                        balance_before := -1, balance_after := -1,
                        admin_id := none }] }) := by
  have hu : st.subscription.is_unlimited = true := by
    simp [UserSubscription.is_unlimited, ht]
  constructor
  · intro amount
    simp [UserSubscription.has_tokens, hu]
  · have hv := is_valid_of_cost hc
    simp [consume_tokens_internal, hv, hc, UserSubscription.has_tokens, hu,
          UserSubscription.consume_tokens, UserSubscription.is_unlimited, ht]

/-- Witness for C7: an ultimate-tier subscription with 7 tokens consumed
consumes a cost-3 operation; the counters move as the theorem states and the
transaction carries the -1 sentinels. -/
theorem ultimate_tier_consume_behavior_witness :
    UserSubscription.has_tokens
      { tier := "ultimate", total_tokens := -1, available_tokens := -1,
        consumed_tokens := 7, lifetime_consumed := 7 } 999999 = true ∧
    consume_tokens_internal TOKEN_COSTS "text_to_text" "w"
        { subscription := { tier := "ultimate", total_tokens := -1,
                            available_tokens := -1, consumed_tokens := 7,
                            lifetime_consumed := 7 }, transactions := [] } =
      Except.ok ({ success := true, cost := 3, availableTokens := -1,
                   consumedTokens := 10,
                   message := success_message "text_to_text" 3 },
                 { subscription := { tier := "ultimate", total_tokens := -1,
                                     available_tokens := -1, consumed_tokens := 10,
                                     lifetime_consumed := 10 },
                   transactions := [{ type := "consumption", amount := -3,
                                      description := "w", balance_before := -1,
                                      balance_after := -1, admin_id := none }] }) := by
  have h := ultimate_tier_consume_behavior "text_to_text" "w"
    { subscription := { tier := "ultimate", total_tokens := -1,
                        available_tokens := -1, consumed_tokens := 7,
                        lifetime_consumed := 7 }, transactions := [] }
    3 rfl rfl
  exact ⟨h.1 999999, h.2⟩

/-! ## C8 -/

/-- C8: admin token adjustment (`topup_user_tokens`): on the unlimited tier
every adjustment is rejected before touching anything; a deduction that would
drive the balance negative is rejected before touching anything; otherwise
both `available_tokens` and `total_tokens` move by exactly `amount` and exactly
one transaction is appended, typed `topup` for positive amounts and
`admin_deduction` for negative ones. -/
theorem admin_topup_behavior :
    (∀ (amount : Int) (d : Option String) (admin : String) (st : LedgerState),
      st.subscription.is_unlimited = true →
      topup_user_tokens amount d admin st =
        Except.error "Cannot adjust tokens for unlimited tier") ∧
    (∀ (amount : Int) (d : Option String) (admin : String) (st : LedgerState),
      st.subscription.is_unlimited = false →
      amount < 0 →
      st.subscription.available_tokens + amount < 0 →
      topup_user_tokens amount d admin st =
        Except.error (deduction_rejected_message amount.natAbs
          st.subscription.available_tokens)) ∧
    (∀ (amount : Int) (d : Option String) (admin : String) (st : LedgerState),
      st.subscription.is_unlimited = false →
      ¬(amount < 0 ∧ st.subscription.available_tokens + amount < 0) →
      topup_user_tokens amount d admin st =
        Except.ok { subscription := { st.subscription with
                      available_tokens := st.subscription.available_tokens + amount,
                      total_tokens := st.subscription.total_tokens + amount },
                    transactions := st.transactions ++
                      [{ type := (if amount > 0 then "topup" else "admin_deduction"),
                         amount := amount,
                         description := topup_description amount d,
                         balance_before := st.subscription.available_tokens,
                         balance_after := st.subscription.available_tokens + amount,
                         admin_id := some admin }] }) := by
  refine ⟨?_, ?_, ?_⟩
  · intro amount d admin st h1
    simp [topup_user_tokens, h1]
  · intro amount d admin st h1 h2 h3
    simp [topup_user_tokens, h1, h2, h3]
  · intro amount d admin st h1 h2
    simp [topup_user_tokens, h1, h2]

/-- Witness for C8 at concrete inputs: an ultimate-tier adjustment is rejected;
deducting 20 from a balance of 15 is rejected with the overdraft message;
topping a fresh free subscription up by 25 moves both counters by 25 and
appends one `topup` transaction. -/
theorem admin_topup_behavior_witness :
    topup_user_tokens 10 none "a1"
        { subscription := { tier := "ultimate", total_tokens := -1,
                            available_tokens := -1, consumed_tokens := 0,
                            lifetime_consumed := 0 }, transactions := [] } =
      Except.error "Cannot adjust tokens for unlimited tier" ∧
    topup_user_tokens (-20) none "a1"
        { subscription := { tier := "free", total_tokens := 100,
                            available_tokens := 15, consumed_tokens := 85,
                            lifetime_consumed := 85 }, transactions := [] } =
      Except.error (deduction_rejected_message 20 15) ∧
    topup_user_tokens 25 none "a1" fresh_free_state =
      Except.ok { subscription := { tier := "free", total_tokens := 125,
                                    available_tokens := 125, consumed_tokens := 0,
                                    lifetime_consumed := 0 },
                  transactions := [{ type := "topup", amount := 25,
                                     description := topup_description 25 none,
                                     balance_before := 100, balance_after := 125,
                                     admin_id := some "a1" }] } := by
  refine ⟨?_, ?_, ?_⟩
  · exact admin_topup_behavior.1 10 none "a1"
      { subscription := { tier := "ultimate", total_tokens := -1,
                          available_tokens := -1, consumed_tokens := 0,
                          lifetime_consumed := 0 }, transactions := [] } rfl
  · exact admin_topup_behavior.2.1 (-20) none "a1"
      { subscription := { tier := "free", total_tokens := 100,
                          available_tokens := 15, consumed_tokens := 85,
                          lifetime_consumed := 85 }, transactions := [] }
      rfl (by decide) (by decide)
  · exact admin_topup_behavior.2.2 25 none "a1" fresh_free_state rfl (by decide)

/-! ## C4 -/

/-- The operations of the claim-C4 sequence: consume (any operation name,
successful or failed), admin credit/deduction, and period reset. -/
inductive AccountOp where
  | consume (operation : String)
  | topup (amount : Int) (admin : String)
  | reset (admin : String)
deriving Repr, DecidableEq

/-- One endpoint call applied to the persisted state.  A call that raises
before committing (invalid operation, unlimited-tier adjustment, overdraft
deduction, unknown tier) leaves the persisted state unchanged, exactly as the
source raises before any mutation; a failed consume returns success=false and
also changes nothing. -/
def apply_account_op (st : LedgerState) (op : AccountOp) : LedgerState :=
  match op with
  | AccountOp.consume operation =>
    match consume_tokens_internal TOKEN_COSTS operation "operation" st with
    | Except.ok r => r.2
    | Except.error _ => st
  | AccountOp.topup amount admin =>
    match topup_user_tokens amount none admin st with
    | Except.ok st2 => st2
    | Except.error _ => st
  | AccountOp.reset admin =>
    match reset_user_billing_period admin st with
    | Except.ok st2 => st2
    | Except.error _ => st

/-- Run a sequence of operations from a freshly created free-tier subscription. -/
def run_account_ops (ops : List AccountOp) : LedgerState :=
  ops.foldl apply_account_op fresh_free_state

/-- P1 and the bounds of claim C4: the pool equation and
`0 <= availableTokens <= totalTokens`. -/
def balance_invariant (st : LedgerState) : Prop :=
  st.subscription.available_tokens + st.subscription.consumed_tokens
    = st.subscription.total_tokens ∧
  0 ≤ st.subscription.available_tokens ∧
  st.subscription.available_tokens ≤ st.subscription.total_tokens

/-- A committed consume preserves the tier and the balance invariant. -/
lemma consume_result_preserves {operation description : String} {st : LedgerState}
    {res : ConsumeResult} {st2 : LedgerState}
    (hfree : st.subscription.tier = "free")
    (hinv : balance_invariant st)
    (h : consume_tokens_internal TOKEN_COSTS operation description st =
      Except.ok (res, st2)) :
    st2.subscription.tier = "free" ∧ balance_invariant st2 := by
  have hu : st.subscription.is_unlimited = false := by
    simp [UserSubscription.is_unlimited, hfree]
  unfold consume_tokens_internal at h
  split at h
  · cases h
  · split at h
    · cases h
    · rename_i cost heq
      dsimp only at h
      split at h
      · simp only [Except.ok.injEq, Prod.mk.injEq] at h
        rw [← h.2]
        exact ⟨hfree, hinv⟩
      · rename_i hht
        have hge : st.subscription.available_tokens ≥ cost := by
          by_contra hlt
          rw [not_le] at hlt
          exact hht (by simp [UserSubscription.has_tokens, hu, not_le.mpr hlt])
        have hc0 := cost_nonneg heq
        simp only [Except.ok.injEq, Prod.mk.injEq] at h
        rw [← h.2]
        obtain ⟨hsum, h0, hle⟩ := hinv
        simp only [UserSubscription.consume_tokens, hu, Bool.false_eq_true,
          if_false, hge, if_true, if_pos hge]
        refine ⟨hfree, ?_, ?_, ?_⟩ <;> simp <;> omega

/-- A committed admin adjustment preserves the tier and the balance invariant. -/
lemma topup_result_preserves {amount : Int} {d : Option String} {admin : String}
    {st st2 : LedgerState}
    (hfree : st.subscription.tier = "free")
    (hinv : balance_invariant st)
    (h : topup_user_tokens amount d admin st = Except.ok st2) :
    st2.subscription.tier = "free" ∧ balance_invariant st2 := by
  unfold topup_user_tokens at h
  dsimp only at h
  split at h
  · cases h
  · split at h
    · cases h
    · rename_i hcond
      simp only [Except.ok.injEq] at h
      rw [← h]
      obtain ⟨hsum, h0, hle⟩ := hinv
      refine ⟨hfree, ?_, ?_, ?_⟩ <;> simp <;> omega

/-- A committed period reset on the free tier restores the full allocation,
 preserving the tier and the balance invariant. -/
lemma reset_result_preserves {admin : String} {st st2 : LedgerState}
    (hfree : st.subscription.tier = "free")
    (h : reset_user_billing_period admin st = Except.ok st2) :
    st2.subscription.tier = "free" ∧ balance_invariant st2 := by
  have hfind : TIER_TOKEN_LIMITS.find? (fun p => p.1 == "free") = some ("free", 100) :=
    rfl
  unfold reset_user_billing_period at h
  dsimp only at h
  simp only [hfree, hfind] at h
  rw [if_pos (show ((100 : Int)) ≠ -1 by decide),
      if_pos (show ((100 : Int)) ≠ -1 by decide)] at h
  simp only [Except.ok.injEq] at h
  rw [← h]
  refine ⟨rfl, ?_, ?_, ?_⟩ <;> simp

/-- One operation of any kind preserves the tier and the balance invariant. -/
lemma apply_account_op_preserves (st : LedgerState) (op : AccountOp)
    (h : st.subscription.tier = "free" ∧ balance_invariant st) :
    (apply_account_op st op).subscription.tier = "free" ∧
    balance_invariant (apply_account_op st op) := by
  obtain ⟨hfree, hinv⟩ := h
  cases op with
  | consume operation =>
    simp only [apply_account_op]
    cases hres : consume_tokens_internal TOKEN_COSTS operation "operation" st with
    | error e => exact ⟨hfree, hinv⟩
    | ok r =>
      obtain ⟨res, st2⟩ := r
      exact consume_result_preserves hfree hinv hres
  | topup amount admin =>
    simp only [apply_account_op]
    cases hres : topup_user_tokens amount none admin st with
    | error e => exact ⟨hfree, hinv⟩
    | ok st2 => exact topup_result_preserves hfree hinv hres
  | reset admin =>
    simp only [apply_account_op]
    cases hres : reset_user_billing_period admin st with
    | error e => exact ⟨hfree, hinv⟩
    | ok st2 => exact reset_result_preserves hfree hres

/-- C4: starting from a freshly created free-tier subscription
(totalTokens = availableTokens = 100, consumedTokens = 0), after every sequence
of consume / admin-adjustment / period-reset operations the pool equation
`availableTokens + consumedTokens = totalTokens` holds together with
`0 <= availableTokens <= totalTokens`. -/
theorem balance_invariant_holds_for_all_sequences (ops : List AccountOp) :
    balance_invariant (run_account_ops ops) := by
  have main : ∀ (l : List AccountOp) (st : LedgerState),
      st.subscription.tier = "free" ∧ balance_invariant st →
      (l.foldl apply_account_op st).subscription.tier = "free" ∧
        balance_invariant (l.foldl apply_account_op st) := by
    intro l
    induction l with
    | nil => intro st h; exact h
    | cons op rest ih =>
      intro st h
      exact ih _ (apply_account_op_preserves st op h)
  exact (main ops fresh_free_state ⟨rfl, by decide, by decide, by decide⟩).2

/-! ## C2 -/

/-- The ledger state after the admission-time video charge committed by
`consume_tokens_internal` on a non-unlimited subscription with at least 50
tokens: 50 tokens moved from available to consumed and one consumption
transaction appended. -/
def post_video_charge (d : String) (st : LedgerState) : LedgerState :=
  { subscription := { st.subscription with
        available_tokens := st.subscription.available_tokens - 50,
        consumed_tokens := st.subscription.consumed_tokens + 50,
        lifetime_consumed := st.subscription.lifetime_consumed + 50 },
    transactions := st.transactions ++
      [{ type := "consumption", amount := -50, description := d,
         balance_before := st.subscription.available_tokens,
         balance_after := st.subscription.available_tokens - 50,
         admin_id := none }] }

/-- With the documented video cost configured, the admission-time consume on a
non-unlimited subscription holding at least 50 tokens succeeds and commits the
charge. -/
lemma consume_video_succeeds (d : String) (st : LedgerState)
    (hnu : st.subscription.is_unlimited = false)
    (hav : 50 ≤ st.subscription.available_tokens) :
    consume_tokens_internal TOKEN_COSTS_video "video_generation" d st =
      Except.ok ({ success := true, cost := 50,
                   availableTokens := st.subscription.available_tokens - 50,
                   consumedTokens := st.subscription.consumed_tokens + 50,
                   message := success_message "video_generation" 50 },
                 post_video_charge d st) := by
  have hv : is_valid_operation TOKEN_COSTS_video "video_generation" = true := rfl
  have hc : get_operation_cost TOKEN_COSTS_video "video_generation" =
      Except.ok 50 := rfl
  have hnu' : (st.subscription.tier == "ultimate") = false := hnu
  have hht : st.subscription.has_tokens 50 = true := by
    simp [UserSubscription.has_tokens, UserSubscription.is_unlimited, hnu', hav]
  simp [consume_tokens_internal, hv, hc, hht, UserSubscription.consume_tokens,
        UserSubscription.is_unlimited, hnu', hav, post_video_charge]

/-- C2 counterexample: a concurrency-rejected submission does NOT restore the
balance.  From a fresh free subscription (100 available) with 3 jobs already in
PENDING/RUNNING and the documented video cost configured, the call is rejected
with the 429 and leaves 50 available tokens, not 100, and one consumption
transaction in the ledger. -/
theorem concurrency_rejection_keeps_charge_cex :
    create_video_job TOKEN_COSTS_video "u1" (some "p") "veo-3.1-generate-preview"
        "720p" "16:9" false (Except.ok 3) fresh_free_state =
      Except.ok (CreateJobOutcome.tooManyJobs too_many_jobs_message,
        post_video_charge "Video generation" fresh_free_state) ∧
    (post_video_charge "Video generation" fresh_free_state).subscription.available_tokens
      = 50 ∧
    fresh_free_state.subscription.available_tokens = 100 ∧
    (50 : Int) ≠ 100 :=
  ⟨rfl, rfl, rfl, by decide⟩

/-- C2 as the code actually behaves: when admission consumed the video charge
and the submission is then rejected — by the concurrency limit or by any of the
three parameter validations — the charge is NOT reversed: the resulting ledger
state is `post_video_charge` (availableTokens decreased by 50, one consumption
transaction kept), and no job row is created (the outcome is a rejection, not
`created`). -/
theorem rejected_submission_forfeits_tokens :
    (∀ (uid : String) (prompt : Option String) (model resolution aspect : String)
       (hasImg : Bool) (n : Nat) (st : LedgerState),
      st.subscription.is_unlimited = false →
      50 ≤ st.subscription.available_tokens →
      3 ≤ n →
      create_video_job TOKEN_COSTS_video uid prompt model resolution aspect hasImg
          (Except.ok n) st =
        Except.ok (CreateJobOutcome.tooManyJobs too_many_jobs_message,
          post_video_charge "Video generation" st)) ∧
    (∀ (uid model resolution aspect : String) (n : Nat) (st : LedgerState),
      st.subscription.is_unlimited = false →
      50 ≤ st.subscription.available_tokens →
      n < 3 →
      create_video_job TOKEN_COSTS_video uid none model resolution aspect false
          (Except.ok n) st =
        Except.ok (CreateJobOutcome.badRequest
          "Either prompt or initialImage is required",
          post_video_charge "Video generation" st)) ∧
    (∀ (uid p model resolution aspect : String) (n : Nat) (st : LedgerState),
      st.subscription.is_unlimited = false →
      50 ≤ st.subscription.available_tokens →
      n < 3 →
      resolution ≠ "720p" → resolution ≠ "1080p" →
      create_video_job TOKEN_COSTS_video uid (some p) model resolution aspect false
          (Except.ok n) st =
        Except.ok (CreateJobOutcome.badRequest
          "Resolution must be 720p or 1080p",
          post_video_charge "Video generation" st)) ∧
    (∀ (uid p model aspect : String) (n : Nat) (st : LedgerState),
      st.subscription.is_unlimited = false →
      50 ≤ st.subscription.available_tokens →
      n < 3 →
      aspect ≠ "16:9" → aspect ≠ "9:16" →
      create_video_job TOKEN_COSTS_video uid (some p) model "720p" aspect false
          (Except.ok n) st =
        Except.ok (CreateJobOutcome.badRequest
          "Aspect ratio must be 16:9 or 9:16",
          post_video_charge "Video generation" st)) := by
  refine ⟨?_, ?_, ?_, ?_⟩
  · intro uid prompt model resolution aspect hasImg n st hnu hav hn
    simp [create_video_job, consume_video_succeeds "Video generation" st hnu hav, hn]
  · intro uid model resolution aspect n st hnu hav hn
    simp [create_video_job, consume_video_succeeds "Video generation" st hnu hav,
          not_le.mpr hn]
  · intro uid p model resolution aspect n st hnu hav hn h1 h2
    simp [create_video_job, consume_video_succeeds "Video generation" st hnu hav,
          not_le.mpr hn, h1, h2]
  · intro uid p model aspect n st hnu hav hn h1 h2
    simp [create_video_job, consume_video_succeeds "Video generation" st hnu hav,
          not_le.mpr hn, h1, h2]

/-- Witness for the as-implemented behavior of C2 at concrete inputs: each rejection
kind (concurrency, missing prompt/image, bad resolution, bad aspect ratio)
leaves the charged state behind. -/
theorem rejected_submission_forfeits_tokens_witness :
    create_video_job TOKEN_COSTS_video "u1" (some "p") "m" "720p" "16:9" false
        (Except.ok 5) fresh_free_state =
      Except.ok (CreateJobOutcome.tooManyJobs too_many_jobs_message,
        post_video_charge "Video generation" fresh_free_state) ∧
    create_video_job TOKEN_COSTS_video "u1" none "m" "720p" "16:9" false
        (Except.ok 0) fresh_free_state =
      Except.ok (CreateJobOutcome.badRequest
        "Either prompt or initialImage is required",
        post_video_charge "Video generation" fresh_free_state) ∧
    create_video_job TOKEN_COSTS_video "u1" (some "p") "m" "480p" "16:9" false
        (Except.ok 0) fresh_free_state =
      Except.ok (CreateJobOutcome.badRequest
        "Resolution must be 720p or 1080p",
        post_video_charge "Video generation" fresh_free_state) ∧
    create_video_job TOKEN_COSTS_video "u1" (some "p") "m" "720p" "4:3" false
        (Except.ok 0) fresh_free_state =
      Except.ok (CreateJobOutcome.badRequest
        "Aspect ratio must be 16:9 or 9:16",
        post_video_charge "Video generation" fresh_free_state) := by
  refine ⟨?_, ?_, ?_, ?_⟩
  · exact rejected_submission_forfeits_tokens.1 "u1" (some "p") "m" "720p" "16:9"
      false 5 fresh_free_state rfl (by decide) (by decide)
  · exact rejected_submission_forfeits_tokens.2.1 "u1" "m" "720p" "16:9" 0
      fresh_free_state rfl (by decide) (by decide)
  · exact rejected_submission_forfeits_tokens.2.2.1 "u1" "p" "m" "480p" "16:9" 0
      fresh_free_state rfl (by decide) (by decide) (by decide) (by decide)
  · exact rejected_submission_forfeits_tokens.2.2.2 "u1" "p" "m" "4:3" 0
      fresh_free_state rfl (by decide) (by decide) (by decide) (by decide)

/-! ## C5 -/

/-- A ledger state in which the user already consumed 10 tokens this period
(e.g. one text_to_image call). -/
def st_prior_consumption : LedgerState :=
  { subscription := { tier := "free", total_tokens := 100, available_tokens := 90,
                      consumed_tokens := 10, lifetime_consumed := 10 },
    transactions := [] }

/-- C5, evaluated at the failing inputs.  First: with the shipped cost table no
submission is ever admitted — the endpoint raises before creating anything —
so no job row with `tokens_consumed` fixed to the admission cost ever exists.
Second: with the video cost configured at the documented 50, a user who had
already consumed 10 tokens this period gets a PENDING job whose
`tokens_consumed` is 60 — the line `tokens_consumed=token_result["consumedTokens"]`
stores the period-cumulative counter the consume call returned, not the 50
actually charged for this single admission (the comment on the column itself says
"Tokens charged for this job" and its default is 50). -/
theorem tokens_consumed_field_stores_cumulative :
    create_video_job TOKEN_COSTS "u1" (some "p") "veo-3.1-generate-preview"
        "720p" "16:9" false (Except.ok 0) fresh_free_state =
      Except.error "Invalid operation: video_generation" ∧
    create_video_job TOKEN_COSTS_video "u1" (some "p") "veo-3.1-generate-preview"
        "720p" "16:9" false (Except.ok 0) st_prior_consumption =
      Except.ok (CreateJobOutcome.created
        { user_id := "u1", prompt := some "p", model := "veo-3.1-generate-preview",
          resolution := "720p", aspectRatioStr := "16:9", status := "PENDING",
          progress_percentage := 0, error_message := none, tokens_consumed := 60 },
        post_video_charge "Video generation" st_prior_consumption) ∧
    (60 : Int) ≠ 50 :=
  ⟨rfl, rfl, by decide⟩

/-! ## C6 -/

/-- A job that has already reached the terminal SUCCEEDED status. -/
def job_succeeded_example : VideoJobRow :=
  { user_id := "u1", prompt := some "p", model := "veo-3.1-generate-preview",
    resolution := "720p", aspectRatioStr := "16:9", status := "SUCCEEDED",
    progress_percentage := 100, error_message := none, tokens_consumed := 50 }

/-- C6 counterexample: the worker never checks the status of the fetched job, so a
(re)delivered invocation for a job already in the terminal SUCCEEDED status
sets it back to RUNNING and, here with the start call failing, leaves it
FAILED — the terminal status changed. -/
theorem worker_reruns_terminal_job_cex :
    is_terminal job_succeeded_example.status = true ∧
    process_video_generation
        { start := StepOutcome.fail "quota exceeded", poll := StepOutcome.ok,
          download := StepOutcome.ok, upload := StepOutcome.ok }
        (some job_succeeded_example) =
      (some { job_succeeded_example with
                status := "FAILED",
                progress_percentage := 10,
                error_message := some "Failed to start generation: quota exceeded" },
       ["RUNNING", "FAILED"]) ∧
    ("FAILED" : String) ≠ "SUCCEEDED" :=
  ⟨rfl, rfl, by decide⟩

/-- C6 amended: within a single worker invocation, once a terminal status has
been committed no further status is committed — in the committed
status sequence, only the last entry can be terminal.  (Across invocations the
property fails: a redelivered invocation restarts a terminal job, see the
counterexample.) -/
theorem worker_trace_terminal_only_last (env : WorkerEnv) (job : Option VideoJobRow) :
    ∀ s ∈ (process_video_generation env job).2.dropLast, is_terminal s = false := by
  intro s hs
  rcases env with ⟨s1, s2, s3, s4⟩
  cases job with
  | none => simp [process_video_generation] at hs
  | some j =>
    cases s1 <;> cases s2 <;> cases s3 <;> cases s4 <;>
      simp [process_video_generation] at hs <;>
      simp [hs, is_terminal]

/-- Witness for the amended statement of C6: the only non-final committed status of
a full successful invocation is RUNNING, which is not terminal. -/
theorem worker_trace_terminal_only_last_witness :
    is_terminal "RUNNING" = false :=
  worker_trace_terminal_only_last
    { start := StepOutcome.ok, poll := StepOutcome.ok,
      download := StepOutcome.ok, upload := StepOutcome.ok }
    (some job_succeeded_example) "RUNNING" (by decide)

/-! ## C9 -/

/-- A non-unlimited subscription holding exactly one text_to_image cost. -/
def race_low_subscription : UserSubscription :=
  { tier := "free", total_tokens := 100, available_tokens := 10,
    consumed_tokens := 90, lifetime_consumed := 90 }

/-- C9 counterexample: with exactly one cost-10 operation worth of tokens
available, the interleaving in which both sessions read the row before either
commits lets BOTH consume calls succeed — the balance check and the decrement
are not serialized (the source takes no row lock).  The final row also shows
the lost update: two successes but a single net decrement. -/
theorem concurrent_consume_double_success_cex :
    get_operation_cost TOKEN_COSTS "text_to_image" = Except.ok 10 ∧
    race_low_subscription.available_tokens = 10 ∧
    two_consumes_read_read_commit_commit 10 race_low_subscription =
      (true, true,
        { tier := "free", total_tokens := 100, available_tokens := 0,
          consumed_tokens := 100, lifetime_consumed := 100 }) :=
  ⟨rfl, rfl, rfl⟩

/-- C9 amended: the source performs the balance check on a row snapshot read
without any row-level lock, so under the read-read-commit-commit interleaving
two concurrent consume calls both pass the check against the same stale balance
and both succeed, even when the balance holds exactly one cost. -/
theorem unlocked_consume_race_both_succeed (c : Int) (sub : UserSubscription)
    (hnu : sub.is_unlimited = false)
    (hav : sub.available_tokens = c) :
    (two_consumes_read_read_commit_commit c sub).1 = true ∧
    (two_consumes_read_read_commit_commit c sub).2.1 = true := by
  have hht : sub.has_tokens c = true := by
    simp [UserSubscription.has_tokens, hnu, hav]
  constructor <;>
    simp [two_consumes_read_read_commit_commit, consume_snapshot_read,
          consume_commit_write, hht]

/-- Witness for the amended statement of C9 at the concrete one-cost-left state. -/
theorem unlocked_consume_race_both_succeed_witness :
    (two_consumes_read_read_commit_commit 10 race_low_subscription).1 = true ∧
    (two_consumes_read_read_commit_commit 10 race_low_subscription).2.1 = true :=
  unlocked_consume_race_both_succeed 10 race_low_subscription rfl rfl

/-! ## C10 -/

/-- C10: the count query of the concurrency gate is wrapped in try/except with a
fallback of 0.  (1) When the count query fails, the outcome is never the
429 concurrency rejection, whatever the actual number of jobs; (2) the
concurrency rejection occurs only when the count query succeeded with a value
of at least 3; (3) concretely, under a count failure a submission with valid
parameters and a successful token charge is admitted (a PENDING job row is
created). -/
theorem count_failure_admits_job :
    (∀ (costs : List (String × Int)) (e uid : String) (prompt : Option String)
       (model resolution aspect : String) (hasImg : Bool) (st : LedgerState)
       (out : CreateJobOutcome × LedgerState) (m : String),
      create_video_job costs uid prompt model resolution aspect hasImg
        (Except.error e) st = Except.ok out →
      out.1 ≠ CreateJobOutcome.tooManyJobs m) ∧
    (∀ (costs : List (String × Int)) (n : Nat) (uid : String)
       (prompt : Option String) (model resolution aspect : String)
       (hasImg : Bool) (st : LedgerState)
       (out : CreateJobOutcome × LedgerState) (m : String),
      create_video_job costs uid prompt model resolution aspect hasImg
        (Except.ok n) st = Except.ok out →
      out.1 = CreateJobOutcome.tooManyJobs m →
      3 ≤ n) ∧
    (∀ (e uid p model : String) (st : LedgerState) (res : ConsumeResult)
       (st1 : LedgerState),
      consume_tokens_internal TOKEN_COSTS_video "video_generation"
        "Video generation" st = Except.ok (res, st1) →
      res.success = true →
      create_video_job TOKEN_COSTS_video uid (some p) model "720p" "16:9" false
          (Except.error e) st =
        Except.ok (CreateJobOutcome.created
          { user_id := uid, prompt := some p, model := model,
            resolution := "720p", aspectRatioStr := "16:9", status := "PENDING",
            progress_percentage := 0, error_message := none,
            tokens_consumed := res.consumedTokens }, st1)) := by
  refine ⟨?_, ?_, ?_⟩
  · intro costs e uid prompt model resolution aspect hasImg st out m h
    unfold create_video_job at h
    split at h
    · cases h
    · rename_i token_result st1
      dsimp only at h
      split at h
      · simp only [Except.ok.injEq] at h
        rw [← h]
        simp
      · rw [if_neg (by decide : ¬((0 : Nat) ≥ 3))] at h
        split at h
        · simp only [Except.ok.injEq] at h; rw [← h]; simp
        · split at h
          · simp only [Except.ok.injEq] at h; rw [← h]; simp
          · split at h
            · simp only [Except.ok.injEq] at h; rw [← h]; simp
            · simp only [Except.ok.injEq] at h; rw [← h]; simp
  · intro costs n uid prompt model resolution aspect hasImg st out m h heq
    unfold create_video_job at h
    split at h
    · cases h
    · rename_i token_result st1
      dsimp only at h
      split at h
      · simp only [Except.ok.injEq] at h
        rw [← h] at heq
        simp at heq
      · split at h
        · rename_i hge
          exact hge
        · split at h
          · simp only [Except.ok.injEq] at h; rw [← h] at heq; simp at heq
          · split at h
            · simp only [Except.ok.injEq] at h; rw [← h] at heq; simp at heq
            · split at h
              · simp only [Except.ok.injEq] at h; rw [← h] at heq; simp at heq
              · simp only [Except.ok.injEq] at h; rw [← h] at heq; simp at heq
  · intro e uid p model st res st1 hcons hsucc
    unfold create_video_job
    rw [hcons]
    simp [hsucc]

/-- Witness for C10 at concrete inputs: with a failing count query a 4th (or
any) submission is never rejected for concurrency and is in fact admitted; with
a successful count of 3 the rejection fires. -/
theorem count_failure_admits_job_witness :
    (CreateJobOutcome.created
      { user_id := "u1", prompt := some "p", model := "m",
        resolution := "720p", aspectRatioStr := "16:9", status := "PENDING",
        progress_percentage := 0, error_message := none, tokens_consumed := 50 },
     post_video_charge "Video generation" fresh_free_state).1 ≠
      CreateJobOutcome.tooManyJobs too_many_jobs_message ∧
    (3 : Nat) ≤ 3 ∧
    create_video_job TOKEN_COSTS_video "u1" (some "p") "m" "720p" "16:9" false
        (Except.error "database schema error") fresh_free_state =
      Except.ok (CreateJobOutcome.created
        { user_id := "u1", prompt := some "p", model := "m",
          resolution := "720p", aspectRatioStr := "16:9", status := "PENDING",
          progress_percentage := 0, error_message := none, tokens_consumed := 50 },
        post_video_charge "Video generation" fresh_free_state) := by
  refine ⟨?_, ?_, ?_⟩
  · exact count_failure_admits_job.1 TOKEN_COSTS_video "database schema error"
      "u1" (some "p") "m" "720p" "16:9" false fresh_free_state
      (CreateJobOutcome.created
        { user_id := "u1", prompt := some "p", model := "m",
          resolution := "720p", aspectRatioStr := "16:9", status := "PENDING",
          progress_percentage := 0, error_message := none, tokens_consumed := 50 },
       post_video_charge "Video generation" fresh_free_state)
      too_many_jobs_message rfl
  · exact count_failure_admits_job.2.1 TOKEN_COSTS_video 3 "u1" (some "p") "m"
      "720p" "16:9" false fresh_free_state
      (CreateJobOutcome.tooManyJobs too_many_jobs_message,
       post_video_charge "Video generation" fresh_free_state)
      too_many_jobs_message rfl rfl
  · exact count_failure_admits_job.2.2 "database schema error" "u1" "p" "m"
      fresh_free_state _ _
      (consume_video_succeeds "Video generation" fresh_free_state rfl (by decide))
      rfl

end AIStudio
